import Mathlib

/-!
Verification of the seleniumx WebDriver client protocol layer.

This file gives a shallow embedding, in Lean, of the parts of the seleniumx
repository that the testable properties of its specification talk about:

* the wire-value model (Python/JSON values, including `WebElement` handles),
  `seleniumx/webdriver/remote/webelement.py`;
* the error taxonomy `ErrorCode` / `WebDriverError` of
  `seleniumx/webdriver/common/enums.py`;
* the response decoder and element wrapping of
  `seleniumx/webdriver/remote/http_executor.py`;
* the error handler of `seleniumx/webdriver/remote/errorhandler.py`;
* the URL-template codec of `seleniumx/webdriver/remote/command_codec.py`;
* the session start / quit logic of `seleniumx/webdriver/remote/webdriver.py`
  and `seleniumx/webdriver/chromium/webdriver.py`;
* the startup polling loop of `seleniumx/webdriver/common/service.py`.

Python values are modelled by the inductive `WDValue`; Python `None` is
`WDValue.null`; dictionaries are association lists in insertion order (the
code never inserts a duplicate key).  Functions that can raise an internal
Python error (`KeyError`, `AttributeError`, `TypeError`) return `Except` or a
dedicated result constructor carrying the error.  Exception classes of
`seleniumx.common.exceptions` (a module whose class bodies are not part of
the sources; only the class names are referenced by the code modelled here)
are modelled by the enumeration `ExcKind`; a raised exception is modelled as
its class together with its positional constructor arguments.
-/

namespace SeleniumX

/-- Opening-brace character, written via its code point so that URL templates
and JSON text can be assembled without literal braces in string literals. -/
def lbrace : Char := Char.ofNat 123

/-- Closing-brace character. -/
def rbrace : Char := Char.ofNat 125

/-- Single-quote character (used by Python `str(KeyError(k))`, which renders
the missing key between single quotes). -/
def squote : Char := Char.ofNat 39

/-- Model of the Python/JSON values flowing through the client: JSON scalars,
arrays and objects, plus `WebElement` instances (`webelement.py`), which hold
`(parent, id_, w3c)` — the parent driver is abstracted to a numeric identity,
the element id is itself a value (the code never constrains its type). -/
inductive WDValue where
  | null
  | bool (b : Bool)
  | int (n : Int)
  | str (s : String)
  | list (xs : List WDValue)
  | dict (xs : List (String × WDValue))
  | element (parent : Nat) (id : WDValue) (w3c : Bool)

/-- Python truthiness: `None`, `False`, `0`, `""`, `[]` and an empty dict are
falsy; every other value (including any object instance) is truthy. -/
def truthy : WDValue → Bool
  | .null => false
  | .bool b => b
  | .int n => n != 0
  | .str s => s != ""
  | .list xs => !xs.isEmpty
  | .dict xs => !xs.isEmpty
  | .element _ _ _ => true

/-- Model of Python `x is None` for the values above. -/
def isNull : WDValue → Bool
  | .null => true
  | _ => false

/-- Dictionary key membership, `k in d`. -/
def hasKey (xs : List (String × WDValue)) (k : String) : Bool :=
  xs.any (fun p => p.1 == k)

/-- Dictionary lookup, `d[k]` / `d.get(k)` without its default. -/
def getKey (xs : List (String × WDValue)) (k : String) : Option WDValue :=
  (xs.find? (fun p => p.1 == k)).map (·.2)

/-- Dictionary lookup with default, `d.get(k, dflt)`. -/
def getKeyD (xs : List (String × WDValue)) (k : String) (dflt : WDValue) : WDValue :=
  (getKey xs k).getD dflt

/-- Dictionary assignment `d[k] = v`: replaces the binding in place when the
key exists, appends it otherwise (CPython insertion order). -/
def setKey : List (String × WDValue) → String → WDValue → List (String × WDValue)
  | [], k, v => [(k, v)]
  | (k0, v0) :: rest, k, v =>
      if k0 == k then (k, v) :: rest else (k0, v0) :: setKey rest k v

/-- Dictionary deletion `del d[k]` (no-op when the key is absent; the code
only deletes after an `in` check). -/
def delKey (xs : List (String × WDValue)) (k : String) : List (String × WDValue) :=
  xs.filter (fun p => p.1 != k)

mutual

/-- Model of Python `==` on the values above.  Booleans compare equal to the
integers 0/1 (`bool` is an `int` subclass); strings, lists and dicts compare
structurally; a `WebElement` compares via `WebElement.__eq__`
(`webelement.py` lines 409-410): true exactly when the other operand also has
an `id` attribute (here: is an element) whose id compares equal. -/
def pyEq : WDValue → WDValue → Bool
  | .null, .null => true
  | .bool a, .bool b => a == b
  | .bool a, .int n => (if a then (1 : Int) else 0) == n
  | .int n, .bool b => n == (if b then (1 : Int) else 0)
  | .int a, .int b => a == b
  | .str a, .str b => a == b
  | .list a, .list b => pyEqList a b
  | .dict a, .dict b => a.length == b.length && pyEqDict a b
  | .element _ i _, .element _ j _ => pyEq i j
  | _, _ => false

/-- Elementwise list equality. -/
def pyEqList : List WDValue → List WDValue → Bool
  | [], [] => true
  | a :: as_, b :: bs => pyEq a b && pyEqList as_ bs
  | _, _ => false

/-- Mapping equality: every binding of the first dict appears (by `==`) in
the second (together with the length check above this models `dict.__eq__`
for duplicate-free dicts). -/
def pyEqDict : List (String × WDValue) → List (String × WDValue) → Bool
  | [], _ => true
  | (k, v) :: rest, ys =>
      (match getKey ys k with
       | some w => pyEq v w
       | none => false)
      && pyEqDict rest ys

end

/-- The exception classes of `seleniumx.common.exceptions` that the modelled
code references by name. -/
inductive ExcKind where
  | WebDriverException
  | NoSuchSessionException
  | NoSuchElementException
  | NoSuchFrameException
  | UnsupportedCommandException
  | StaleElementReferenceException
  | ElementNotVisibleException
  | InvalidElementStateException
  | ElementNotSelectableException
  | JavascriptException
  | InvalidSelectorException
  | TimeoutException
  | NoSuchWindowException
  | InvalidCookieDomainException
  | UnableToSetCookieException
  | UnhandledAlertException
  | UnexpectedAlertPresentException
  | NoAlertPresentException
  | ScriptTimeoutException
  | InvalidCoordinatesException
  | ImeNotAvailableException
  | ImeActivationFailedException
  | SessionNotCreatedException
  | MoveTargetOutOfBoundsException
  | InvalidXpathSelectorException
  | ElementNotInteractableException
  | InvalidArgumentException
  | NoSuchCookieException
  | ScreenshotException
  | ElementClickInterceptedException
  | InsecureCertificateException
  | InvalidSessionIdException
deriving DecidableEq

/-- One row of the error table (`enums.py`, class `WebDriverError`): name,
legacy JSON-wire numeric code, W3C status slug, HTTP status, exception class
(`None` for the success row), and the two canonicality booleans. -/
structure WebDriverError where
  name : String
  json_code : Int
  w3c_status : String
  http_status_code : Nat
  exception : Option ExcKind
  is_canonical_json_code : Bool
  is_canonical_w3c : Bool
deriving DecidableEq

/-- Positional constructor mirroring `WebDriverError.__init__`. -/
def mkError (name : String) (json_code : Int) (w3c_status : String)
    (http_status_code : Nat) (exception : Option ExcKind)
    (is_canonical_json_code : Bool) (is_canonical_w3c : Bool) : WebDriverError :=
  ⟨name, json_code, w3c_status, http_status_code, exception,
   is_canonical_json_code, is_canonical_w3c⟩

/-- Default exception class, `WebDriverError.DEFAULT_EXCEPTION`. -/
def DEFAULT_EXCEPTION : Option ExcKind := some ExcKind.WebDriverException

/-- `WebDriverError.is_match(value)` (`enums.py` lines 257-263): the given
wire value equals (Python `==`) the legacy code of the row or its W3C slug, and
the row is marked canonical for W3C. -/
def is_match (e : WebDriverError) (value : WDValue) : Bool :=
  (pyEq value (.int e.json_code) || pyEq value (.str e.w3c_status)) && e.is_canonical_w3c

namespace ErrorCode

def SUCCESS : WebDriverError := mkError "success" 7 "success" 200 none true true
def NO_SUCH_SESSION : WebDriverError := mkError "NoSuchSession" 7 "invalid session id" 404 (some .NoSuchSessionException) true true
def NO_SUCH_ELEMENT : WebDriverError := mkError "NoSuchElement" 7 "no such element" 404 (some .NoSuchElementException) true true
def NO_SUCH_FRAME : WebDriverError := mkError "NoSuchFrame" 8 "no such frame" 404 (some .NoSuchFrameException) true true
def UNKNOWN_COMMAND : WebDriverError := mkError "UnknownCommand" 9 "unknown command" 404 (some .UnsupportedCommandException) true true
def STALE_ELEMENT_REFERENCE : WebDriverError := mkError "StaleElement" 10 "stale element reference" 404 (some .StaleElementReferenceException) true true
def ELEMENT_NOT_VISIBLE : WebDriverError := mkError "ElementNotVisible" 11 "element not visible" 400 (some .ElementNotVisibleException) true true
def INVALID_ELEMENT_STATE : WebDriverError := mkError "InvalidElementState" 12 "invalid element state" 400 (some .InvalidElementStateException) true true
def UNKNOWN_ERROR : WebDriverError := mkError "UnknownError" 13 "unknown error" 500 (some .WebDriverException) true true
def ELEMENT_NOT_SELECTABLE : WebDriverError := mkError "ElementNotSelectable" 15 "element not selectable" 400 (some .ElementNotSelectableException) true true
def JAVASCRIPT_ERROR : WebDriverError := mkError "JavascriptError" 17 "javascript error" 500 (some .JavascriptException) true true
def XPATH_LOOKUP_ERROR : WebDriverError := mkError "XpathLookup" 19 "invalid selector" 400 (some .InvalidSelectorException) false false
def TIMEOUT : WebDriverError := mkError "Timeout" 21 "timeout" 500 (some .TimeoutException) true true
def NO_SUCH_WINDOW : WebDriverError := mkError "NoSuchWindow" 23 "no such window" 404 (some .NoSuchWindowException) true true
def INVALID_COOKIE_DOMAIN : WebDriverError := mkError "InvalidCookieDomain" 24 "invalid cookie domain" 400 (some .InvalidCookieDomainException) true true
def UNABLE_TO_SET_COOKIE : WebDriverError := mkError "UnableToSetCookie" 25 "unable to set cookie" 500 (some .UnableToSetCookieException) true true
def UNEXPECTED_ALERT_OPEN : WebDriverError := mkError "UnhandledAlertOpen" 26 "unexpected alert open" 500 (some .UnhandledAlertException) true true
def NO_ALERT_OPEN : WebDriverError := mkError "NoAlertPresent" 27 "no such alert" 404 (some .NoAlertPresentException) true true
def SCRIPT_TIMEOUT : WebDriverError := mkError "ScriptTimeout" 28 "script timeout" 500 (some .ScriptTimeoutException) true true
def INVALID_ELEMENT_COORDINATES : WebDriverError := mkError "InvalidElementCoordinates" 29 "invalid element coordinates" 400 (some .InvalidCoordinatesException) true true
def IME_NOT_AVAILABLE : WebDriverError := mkError "ImeNotAvailable" 30 "ime not available" 500 (some .ImeNotAvailableException) true false
def IME_ENGINE_ACTIVATION_FAILED : WebDriverError := mkError "ImeActivationFailed" 31 "ime engine activation failed" 500 (some .ImeActivationFailedException) true false
def INVALID_SELECTOR : WebDriverError := mkError "InvalidSelector" 32 "invalid selector" 400 (some .InvalidSelectorException) true true
def SESSION_NOT_CREATED : WebDriverError := mkError "SessioNotCreated" 33 "session not created" 500 (some .SessionNotCreatedException) true true
def MOVE_TARGET_OUT_OF_BOUNDS : WebDriverError := mkError "MoveTargetOutOfBounds" 34 "move target out of bounds" 500 (some .MoveTargetOutOfBoundsException) true true
def INVALID_XPATH_SELECTOR : WebDriverError := mkError "InvalidXpathSelector" 51 "invalid selector" 400 (some .InvalidSelectorException) false false
def INVALID_XPATH_SELECTOR_RETURN_TYPER : WebDriverError := mkError "InvalidXpathReturnType" 52 "invalid selector" 400 (some .InvalidSelectorException) false true
def ELEMENT_NOT_INTERACTABLE : WebDriverError := mkError "ElementNotInteractable" 60 "element not interactable" 400 (some .ElementNotInteractableException) true true
def INVALID_ARGUMENT : WebDriverError := mkError "InvalidArgument" 61 "invalid argument" 400 (some .InvalidArgumentException) true true
def NO_SUCH_COOKIE : WebDriverError := mkError "NoSuchCookie" 62 "no such cookie" 404 (some .NoSuchCookieException) true true
def UNABLE_TO_CAPTURE_SCREEN : WebDriverError := mkError "Screenshot" 63 "unable to capture screen" 500 (some .ScreenshotException) true true
def ELEMENT_CLICK_INTERCEPTED : WebDriverError := mkError "ElementClickIntercepted" 64 "element click intercepted" 400 (some .ElementClickInterceptedException) true true
def METHOD_NOT_ALLOWED : WebDriverError := mkError "MethodNotAllowed" 405 "unsupported operation" 500 (some .UnsupportedCommandException) false true
def UNKNOWN_METHOD : WebDriverError := mkError "UnknownMethod" 405 "unknown method" 405 (some .UnsupportedCommandException) false true
def INSECURE_CERTIFICATE : WebDriverError := mkError "InsecureCertificate" (-1) "insecure certificate" 500 (some .InsecureCertificateException) true true
def INVALID_SESSION_ID : WebDriverError := mkError "InvalidSessionId" (-1) "invalid session id" 500 (some .InvalidSessionIdException) true true
def INVALID_COORDINATES : WebDriverError := mkError "InvalidCoordinates" (-1) "invalid coordinates" 500 (some .InvalidCoordinatesException) true true

/-- The members of the `ErrorCode` enum in definition order — the order in
which `ErrorCode.__members__.items()` yields them. -/
def members : List WebDriverError :=
  [SUCCESS, NO_SUCH_SESSION, NO_SUCH_ELEMENT, NO_SUCH_FRAME, UNKNOWN_COMMAND,
   STALE_ELEMENT_REFERENCE, ELEMENT_NOT_VISIBLE, INVALID_ELEMENT_STATE,
   UNKNOWN_ERROR, ELEMENT_NOT_SELECTABLE, JAVASCRIPT_ERROR, XPATH_LOOKUP_ERROR,
   TIMEOUT, NO_SUCH_WINDOW, INVALID_COOKIE_DOMAIN, UNABLE_TO_SET_COOKIE,
   UNEXPECTED_ALERT_OPEN, NO_ALERT_OPEN, SCRIPT_TIMEOUT,
   INVALID_ELEMENT_COORDINATES, IME_NOT_AVAILABLE, IME_ENGINE_ACTIVATION_FAILED,
   INVALID_SELECTOR, SESSION_NOT_CREATED, MOVE_TARGET_OUT_OF_BOUNDS,
   INVALID_XPATH_SELECTOR, INVALID_XPATH_SELECTOR_RETURN_TYPER,
   ELEMENT_NOT_INTERACTABLE, INVALID_ARGUMENT, NO_SUCH_COOKIE,
   UNABLE_TO_CAPTURE_SCREEN, ELEMENT_CLICK_INTERCEPTED, METHOD_NOT_ALLOWED,
   UNKNOWN_METHOD, INSECURE_CERTIFICATE, INVALID_SESSION_ID, INVALID_COORDINATES]

end ErrorCode

/-- The scanning loop of `ErrorCode.get_exception_for_error` (`enums.py`
lines 314-320): walk the rows in order, return the exception class of the
first row whose `is_match` holds, and `DEFAULT_EXCEPTION` when none does. -/
def scanForException : List WebDriverError → WDValue → Option ExcKind
  | [], _ => DEFAULT_EXCEPTION
  | e :: rest, v => if is_match e v then e.exception else scanForException rest v

/-- `ErrorCode.get_exception_for_error(error)`. -/
def get_exception_for_error (error : WDValue) : Option ExcKind :=
  scanForException ErrorCode.members error

/-- `ErrorCode.is_success(code)` (`enums.py` lines 322-327): matches the
`SUCCESS` row. -/
def is_success (code : WDValue) : Bool :=
  is_match ErrorCode.SUCCESS code

/-- Python `repr()` quoting of a string (escape sequences are not needed for
the texts handled here). -/
def pyQuote (s : String) : String :=
  String.singleton squote ++ s ++ String.singleton squote

mutual

/-- Python `repr()` of a value (for the value shapes used here `str()` and
`repr()` differ only on strings, which `repr` quotes). -/
def pyRepr : WDValue → String
  | .null => "None"
  | .bool b => if b then "True" else "False"
  | .int n => toString n
  | .str s => pyQuote s
  | .list xs => "[" ++ pyReprItems xs ++ "]"
  | .dict xs => String.singleton lbrace ++ pyReprPairs xs ++ String.singleton rbrace
  | .element p _ _ => "<WebElement (" ++ toString p ++ ")>"

/-- Comma-joined `repr`s of list items. -/
def pyReprItems : List WDValue → String
  | [] => ""
  | [x] => pyRepr x
  | x :: xs => pyRepr x ++ ", " ++ pyReprItems xs

/-- Comma-joined `repr`s of dict entries. -/
def pyReprPairs : List (String × WDValue) → String
  | [] => ""
  | [(k, v)] => pyQuote k ++ ": " ++ pyRepr v
  | (k, v) :: xs => pyQuote k ++ ": " ++ pyRepr v ++ ", " ++ pyReprPairs xs

end

/-- Python `str()` of a value, as interpolated by f-strings and
`str.format`. -/
def pyStr : WDValue → String
  | .str s => s
  | v => pyRepr v

/-- Whitespace skipping for the JSON reader. -/
def skipWs : List Char → List Char
  | c :: rest => if c == ' ' || c == '\t' || c == '\n' || c == '\r' then skipWs rest else c :: rest
  | [] => []

/-- Reads the body of a JSON string literal after its opening quote.  The
escape set covers the texts exercised here; an unsupported escape makes the
parse fail (the decoder then treats the body as opaque text). -/
def parseStringBody : List Char → String → Option (String × List Char)
  | [], _ => none
  | '\\' :: e :: rest, acc =>
      if e == '"' then parseStringBody rest (acc ++ "\"")
      else if e == '\\' then parseStringBody rest (acc ++ "\\")
      else if e == '/' then parseStringBody rest (acc ++ "/")
      else if e == 'n' then parseStringBody rest (acc ++ "\n")
      else if e == 't' then parseStringBody rest (acc ++ "\t")
      else if e == 'r' then parseStringBody rest (acc ++ "\r")
      else none
  | c :: rest, acc =>
      if c == '"' then some (acc, rest) else parseStringBody rest (acc ++ String.singleton c)

/-- Digit-run reader for JSON integers; stops before any non-digit, failing
on a fraction or exponent marker. -/
def parseNumRun : List Char → Nat → Option (Nat × List Char)
  | c :: rest, acc =>
      if c.isDigit then parseNumRun rest (acc * 10 + (c.toNat - 48))
      else if c == '.' || c == 'e' || c == 'E' then none
      else some (acc, c :: rest)
  | [], acc => some (acc, [])

/-- Reads a JSON integer (an exponent or fraction part makes the parse fail:
the model has no float values; none of the wire payloads modelled here carry
any). -/
def parseNumber (cs : List Char) : Option (WDValue × List Char) :=
  let (neg, cs1) := match cs with
    | '-' :: rest => (true, rest)
    | _ => (false, cs)
  match cs1 with
  | c :: _ =>
      if c.isDigit then
        (parseNumRun cs1 0).map (fun p => (.int (if neg then -(p.1 : Int) else (p.1 : Int)), p.2))
      else none
  | [] => none

mutual

/-- Fueled recursive-descent JSON reader, the model of `json.loads` used by
the response decoder and the error handler. -/
def parseValue : Nat → List Char → Option (WDValue × List Char)
  | 0, _ => none
  | Nat.succ f, cs =>
    match skipWs cs with
    | 'n' :: 'u' :: 'l' :: 'l' :: rest => some (.null, rest)
    | 't' :: 'r' :: 'u' :: 'e' :: rest => some (.bool true, rest)
    | 'f' :: 'a' :: 'l' :: 's' :: 'e' :: rest => some (.bool false, rest)
    | '"' :: rest => (parseStringBody rest "").map (fun p => (.str p.1, p.2))
    | '[' :: rest =>
        (match skipWs rest with
         | ']' :: rest2 => some (.list [], rest2)
         | other => (parseItems f other).map (fun p => (.list p.1, p.2)))
    | c :: rest =>
        if c == lbrace then
          match skipWs rest with
          | c2 :: rest2 =>
              if c2 == rbrace then some (.dict [], rest2)
              else (parseMembers f (c2 :: rest2)).map (fun p => (.dict p.1, p.2))
          | [] => none
        else if c == '-' || c.isDigit then parseNumber (c :: rest)
        else none
    | [] => none

/-- Comma-separated array items up to the closing bracket. -/
def parseItems : Nat → List Char → Option (List WDValue × List Char)
  | 0, _ => none
  | Nat.succ f, cs =>
    match parseValue f cs with
    | some (v, rest) =>
        (match skipWs rest with
         | ',' :: rest2 => (parseItems f rest2).map (fun p => (v :: p.1, p.2))
         | ']' :: rest2 => some ([v], rest2)
         | _ => none)
    | none => none

/-- Comma-separated object members up to the closing brace. -/
def parseMembers : Nat → List Char → Option (List (String × WDValue) × List Char)
  | 0, _ => none
  | Nat.succ f, cs =>
    match skipWs cs with
    | '"' :: rest =>
        (match parseStringBody rest "" with
         | some (k, rest2) =>
             (match skipWs rest2 with
              | ':' :: rest3 =>
                  (match parseValue f rest3 with
                   | some (v, rest4) =>
                       (match skipWs rest4 with
                        | ',' :: rest5 => (parseMembers f rest5).map (fun p => ((k, v) :: p.1, p.2))
                        | c :: rest5 => if c == rbrace then some ([(k, v)], rest5) else none
                        | [] => none)
                   | none => none)
              | _ => none)
         | none => none)
    | _ => none

end

/-- `json.loads` on a whole document: one value, then only whitespace. -/
def jsonLoads (s : String) : Option WDValue :=
  match parseValue (s.length + 1) s.data with
  | some (v, rest) => if (skipWs rest).isEmpty then some v else none
  | none => none

/-- Legacy element key, `WebDriverWrapper.ELEMENT1` (`http_executor.py`). -/
def ELEMENT1 : String := "ELEMENT"

/-- W3C element key, `WebDriverWrapper.ELEMENT2`. -/
def ELEMENT2 : String := "element-6066-11e4-a52e-4f735466cecf"

mutual

/-- `WebDriverRequestWrapper.unwrap_web_element` (`http_executor.py` lines
148-160): recursively replaces every `WebElement` in the request params by
the two-key wire object holding its id under both the legacy and the W3C
key; dicts and lists are rebuilt recursively, scalars pass through. -/
def unwrap_web_element : WDValue → WDValue
  | .dict xs => .dict (unwrapPairs xs)
  | .element _ i _ => .dict [(ELEMENT1, i), (ELEMENT2, i)]
  | .list xs => .list (unwrapItems xs)
  | v => v

/-- Pointwise unwrap of list items. -/
def unwrapItems : List WDValue → List WDValue
  | [] => []
  | x :: xs => unwrap_web_element x :: unwrapItems xs

/-- Pointwise unwrap of dict entries. -/
def unwrapPairs : List (String × WDValue) → List (String × WDValue)
  | [] => []
  | (k, v) :: xs => (k, unwrap_web_element v) :: unwrapPairs xs

end

/-- The `KeyError` raised by `value[self.ELEMENT2]` when the W3C key is
absent in the fallback branch of `wrap_web_element`. -/
def keyErrorElement2 : String := "KeyError: " ++ pyQuote ELEMENT2

mutual

/-- `WebDriverResponseWrapper.wrap_web_element` (`http_executor.py` lines
168-184): a dict containing the legacy or the W3C element key is replaced
wholesale by a `WebElement` bound to the given driver and dialect — the
value under the legacy key is used when it is present and not `None`, otherwise the
dict is indexed with the W3C key, a `KeyError` when that key is absent.
Other dicts and lists are rebuilt recursively. -/
def wrap_web_element (wd : Nat) (value : WDValue) (is_w3c : Bool) : Except String WDValue :=
  match value with
  | .dict xs =>
      if hasKey xs ELEMENT1 || hasKey xs ELEMENT2 then
        match getKey xs ELEMENT1 with
        | some v =>
            if isNull v then
              match getKey xs ELEMENT2 with
              | some v2 => .ok (.element wd v2 is_w3c)
              | none => .error keyErrorElement2
            else .ok (.element wd v is_w3c)
        | none =>
            match getKey xs ELEMENT2 with
            | some v2 => .ok (.element wd v2 is_w3c)
            | none => .error keyErrorElement2
      else
        match wrapPairs wd xs is_w3c with
        | .ok ys => .ok (.dict ys)
        | .error e => .error e
  | .list xs =>
      match wrapItems wd xs is_w3c with
      | .ok ys => .ok (.list ys)
      | .error e => .error e
  | v => .ok v

/-- Pointwise wrap of list items. -/
def wrapItems (wd : Nat) : List WDValue → Bool → Except String (List WDValue)
  | [], _ => .ok []
  | x :: xs, w =>
      match wrap_web_element wd x w with
      | .ok y =>
          match wrapItems wd xs w with
          | .ok ys => .ok (y :: ys)
          | .error e => .error e
      | .error e => .error e

/-- Pointwise wrap of dict entries. -/
def wrapPairs (wd : Nat) : List (String × WDValue) → Bool → Except String (List (String × WDValue))
  | [], _ => .ok []
  | (k, v) :: xs, w =>
      match wrap_web_element wd v w with
      | .ok y =>
          match wrapPairs wd xs w with
          | .ok ys => .ok ((k, y) :: ys)
          | .error e => .error e
      | .error e => .error e

end

/-- Substring membership, Python `needle in haystack` on strings. -/
def strContains (haystack needle : String) : Bool :=
  (haystack.splitOn needle).length > 1

/-- `WebDriverResponseWrapper.create_response` (`http_executor.py` lines
186-215) on an HTTP response with the given status code and body text.  The
body is JSON-decoded when possible; a non-2xx status yields the envelope
`(status: http_status, value: decoded_or_raw_body)`; a decoded 2xx body is
returned as-is after ensuring a `value` key (inserting `None` when absent —
possible only for a dict body, anything else raises `TypeError` at the
insertion, and a string or list body already containing `"value"` is
returned unchanged); an undecodable 2xx body is wrapped as a success
envelope using the legacy code of the `SUCCESS` row. -/
def create_response (status_code : Nat) (body : String) : Except String WDValue :=
  let parsed := jsonLoads body
  let response_data : WDValue := match parsed with
    | some j => j
    | none => .str body
  let is_error := 400 ≤ status_code && status_code ≤ 599
  if is_error then
    .ok (.dict [("status", .int status_code), ("value", response_data)])
  else
    match parsed with
    | some (.dict d) =>
        if hasKey d "value" then .ok (.dict d)
        else .ok (.dict (d ++ [("value", .null)]))
    | some (.str s) =>
        if strContains s "value" then .ok (.str s) else .error "TypeError"
    | some (.list xs) =>
        if xs.any (fun x => pyEq x (.str "value")) then .ok (.list xs) else .error "TypeError"
    | some _ => .error "TypeError"
    | none => .ok (.dict [("status", .int ErrorCode.SUCCESS.json_code), ("value", .str body)])

/-- `WebDriverResponseWrapper.create_response_for_error` (`http_executor.py`
lines 217-224): the filled error template — `status` is the `UNKNOWN_ERROR`
legacy code, `value.error` its W3C slug, `value.message` the given message,
`value.stacktrace` the given value (at the call site in `execute`, the
caught exception object itself). -/
def create_response_for_error (message : String) (stacktrace : WDValue) : WDValue :=
  .dict [("status", .int ErrorCode.UNKNOWN_ERROR.json_code),
         ("value", .dict [("error", .str ErrorCode.UNKNOWN_ERROR.w3c_status),
                          ("message", .str message),
                          ("stacktrace", stacktrace)])]

/-- Stand-in for a Python exception instance passed around as a value (the
`create_response_for_error(str(ex), ex)` call site): truthy, neither a
string nor a list, so `_get_stacktrace` turns it into the empty list exactly
as iterating a real exception raises the caught `TypeError`. -/
def pyExceptionObj (message : String) : WDValue :=
  .dict [("pyException", .str message)]

/-- One rendered line of the structured-frame loop of
`ErrorHandler._get_stacktrace` (`errorhandler.py` lines 122-136); non-dict frames are skipped. -/
def stackFrameLine : WDValue → Option WDValue
  | .dict d =>
      let file_name := getKeyD d "fileName" (.str "<anonymous>")
      let line_number := getKeyD d "lineNumber" .null
      let file_str := if truthy line_number then pyStr file_name ++ ":" ++ pyStr line_number
                      else pyStr file_name
      let class_name := getKeyD d "className" .null
      let method := getKeyD d "methodName" (.str "<anonymous>")
      let method_str := if truthy class_name then pyStr class_name ++ "." ++ pyStr method
                        else pyStr method
      some (.str ("    at " ++ method_str ++ " (" ++ file_str ++ ")"))
  | _ => none

/-- `ErrorHandler._get_stacktrace` (`errorhandler.py` lines 111-139): falsy
input gives `None`; a string is split on newlines; a list of frames is
rendered line by line; any other truthy value gives the empty list (iterating
it either yields no dict frames or raises the caught `TypeError`). -/
def get_stacktrace (v : WDValue) : WDValue :=
  if truthy v then
    match v with
    | .str s => .list ((s.splitOn "\n").map .str)
    | .list frames => .list (frames.filterMap stackFrameLine)
    | _ => .list []
  else .null

/-- `ErrorHandler._convert_str_to_json` (`errorhandler.py` lines 101-108):
strings are JSON-decoded when possible, anything else passes through. -/
def convert_str_to_json : WDValue → WDValue
  | .str s =>
      (match jsonLoads s with
       | some j => j
       | none => .str s)
  | v => v

/-- The numeric-status test of `ErrorHandler.handle` (line 45):
`isinstance(status, int)` (booleans included) `or
str(status).strip().isnumeric()`. -/
def status_is_numeric : WDValue → Bool
  | .int _ => true
  | .bool _ => true
  | .str s => let t := s.trim; !t.isEmpty && t.all Char.isDigit
  | _ => false

/-- `ErrorHandler._get_status_value_message` (`errorhandler.py` lines
71-99): re-derives `(status, value, message)` from a legacy-shaped payload,
unwrapping a single-key `value` wrapper, preferring `value.error` over
`value.status`, and falling back through `value.message` / `value.value`
(including the doubly nested message dict).  An `AttributeError` (from
`.keys()` / `.get` on a non-dict) propagates — only `ValueError` is caught
in the source. -/
def get_status_value_message (response : List (String × WDValue)) :
    Except String (WDValue × WDValue × WDValue) :=
  let status0 := getKeyD response "status" .null
  let value_json := getKeyD response "value" .null
  let tryResult : Except String (WDValue × WDValue × WDValue) :=
    if truthy value_json then
      match convert_str_to_json value_json with
      | .dict d1 =>
          let v2 := if d1.length == 1 && hasKey d1 "value" then getKeyD d1 "value" .null
                    else .dict d1
          match v2 with
          | .dict d2 =>
              let err := getKeyD d2 "error" .null
              if isNull err then
                let st := getKeyD d2 "status" .null
                let msg0 := getKeyD d2 "message" .null
                let msg1 := if truthy msg0 then msg0 else getKeyD d2 "value" .null
                match msg1 with
                | .dict md => .ok (st, .dict md, getKeyD md "message" .null)
                | _ => .ok (st, .dict d2, msg1)
              else .ok (err, .dict d2, getKeyD d2 "message" .null)
          | _ => .error "AttributeError"
      | _ => .error "AttributeError"
    else .ok (status0, .null, .null)
  match tryResult with
  | .error e => .error e
  | .ok (st, v, msg) =>
      let v2 := if truthy v then v else getKeyD response "value" .null
      let msg2 :=
        if !truthy msg then
          match v2 with
          | .dict d => if hasKey d "message" then getKeyD d "message" .null else msg
          | _ => msg
        else msg
      .ok (st, v2, msg2)

/-- Outcome of `ErrorHandler.handle`: a normal return, a raised WebDriver
exception (class plus positional constructor arguments), or a propagating
internal Python error. -/
inductive HandleResult where
  | ok
  | raised (kind : Option ExcKind) (args : List WDValue)
  | pyerror (msg : String)

/-- The `alert_text` extraction of `ErrorHandler.handle` (lines 61-66). -/
def alertText (d : List (String × WDValue)) : Except String WDValue :=
  if hasKey d "data" then
    match getKeyD d "data" .null with
    | .dict dd => .ok (getKeyD dd "text" .null)
    | _ => .error "AttributeError"
  else if hasKey d "alert" then
    match getKeyD d "alert" .null with
    | .dict dd => .ok (getKeyD dd "text" .null)
    | _ => .error "AttributeError"
  else .ok .null

/-- `ErrorHandler.handle` (`errorhandler.py` lines 25-69): returns normally
when the envelope has no `status` or a success status; re-derives
`(status, value, message)` for numeric statuses; resolves the exception
class from the error table; raises it with the bare string value, or with
`(message, screen, stacktrace)` — plus `alert_text` for the
unexpected-alert class. -/
def handle (response : WDValue) : HandleResult :=
  match response with
  | .dict renv =>
      let status := getKeyD renv "status" .null
      if isNull status || is_success status then .ok
      else
        let message0 := getKeyD renv "message" (.str "")
        let next : Except String (WDValue × WDValue × WDValue) :=
          if status_is_numeric status then get_status_value_message renv
          else .ok (status, .null, message0)
        match next with
        | .error e => .pyerror e
        | .ok (st, value0, message) =>
            let exception_class := get_exception_for_error st
            match value0 with
            | .str s => .raised exception_class [.str s]
            | _ =>
                let value := if truthy value0 then value0 else .dict []
                match value with
                | .dict d =>
                    let screen := if hasKey d "screen" then getKeyD d "screen" .null else .null
                    let st_value :=
                      let a := getKeyD d "stackTrace" .null
                      if truthy a then a else getKeyD d "stacktrace" .null
                    let stacktrace := get_stacktrace st_value
                    if exception_class == some ExcKind.UnexpectedAlertPresentException then
                      match alertText d with
                      | .ok alert_text => .raised exception_class [message, screen, stacktrace, alert_text]
                      | .error e => .pyerror e
                    else .raised exception_class [message, screen, stacktrace]
                | _ => .pyerror "AttributeError"
  | _ => .pyerror "AttributeError"

/-- HTTP methods (`enums.py`, class `HttpMethod`). -/
inductive HttpMethod where
  | GET
  | POST
  | PUT
  | PATCH
  | HEAD
  | OPTIONS
  | DELETE
deriving DecidableEq

/-- HTTP method and URL template of a command / resolved path
(`command_codec.py`, class `CommandSpec`; `ParsedCommandSpec` is the same
class). -/
structure CommandSpec where
  http_method : HttpMethod
  url_path : String
deriving DecidableEq

/-- `CommandSpec.for_get`. -/
def CommandSpec.for_get (url_path : String) : CommandSpec := ⟨HttpMethod.GET, url_path⟩

/-- `CommandSpec.for_post`. -/
def CommandSpec.for_post (url_path : String) : CommandSpec := ⟨HttpMethod.POST, url_path⟩

/-- `CommandSpec.for_delete`. -/
def CommandSpec.for_delete (url_path : String) : CommandSpec := ⟨HttpMethod.DELETE, url_path⟩

/-- `CommandInfo` (`command.py`): the command constant (a plain string in
the `Command` class of the source), the session id and the params map. -/
structure CommandInfo where
  command : String
  session_id : WDValue
  params : List (String × WDValue)

/-- `CommandInfo.get_all_params`: the params map updated with the
`sessionId` binding (replacing a caller-supplied one). -/
def get_all_params (c : CommandInfo) : List (String × WDValue) :=
  setKey c.params "sessionId" c.session_id

/-- Failures of `str.format`: a missing mapping key (Python `KeyError`,
reported for the first unresolved field, left to right) or a malformed
template (Python `ValueError`, e.g. an unmatched brace). -/
inductive FormatError where
  | keyError (k : String)
  | valueError (msg : String)
deriving DecidableEq

/-- Reads a replacement-field name up to the closing brace. -/
def collectField : List Char → String → Option (String × List Char)
  | [], _ => none
  | c :: rest, acc =>
      if c == rbrace then some (acc, rest)
      else collectField rest (acc ++ String.singleton c)

/-- Fueled left-to-right scan of `str.format`: literal text is copied,
doubled braces escape, a replacement field is substituted with `str(value)`
from the mapping, and a field absent from the mapping fails with its name. -/
def formatGo : Nat → List Char → List (String × WDValue) → String → Except FormatError String
  | 0, _, _, _ => .error (.valueError "format recursion limit")
  | Nat.succ fuel, cs, mapping, acc =>
      match cs with
      | [] => .ok acc
      | c :: rest =>
          if c == lbrace then
            match rest with
            | c2 :: rest2 =>
                if c2 == lbrace then formatGo fuel rest2 mapping (acc ++ String.singleton lbrace)
                else
                  match collectField (c2 :: rest2) "" with
                  | some (nm, rest3) =>
                      (match getKey mapping nm with
                       | some v => formatGo fuel rest3 mapping (acc ++ pyStr v)
                       | none => .error (.keyError nm))
                  | none => .error (.valueError "Single opening brace encountered in format string")
            | [] => .error (.valueError "Single opening brace encountered in format string")
          else if c == rbrace then
            match rest with
            | c2 :: rest2 =>
                if c2 == rbrace then formatGo fuel rest2 mapping (acc ++ String.singleton rbrace)
                else .error (.valueError "Single closing brace encountered in format string")
            | [] => .error (.valueError "Single closing brace encountered in format string")
          else formatGo fuel rest mapping (acc ++ String.singleton c)

/-- `str(template).format(**params)` as used by `CommandCodec._build_url`. -/
def pyFormat (template : String) (mapping : List (String × WDValue)) : Except FormatError String :=
  formatGo (template.length + 1) template.data mapping ""

/-- `CommandCodec._build_url` (`command_codec.py` lines 189-199): formats
the URL template against the given mapping; a `KeyError` for a missing
placeholder is re-raised as the configuration `ValueError` whose message
starts with `str(KeyError)` — the quoted key name; other format errors
propagate unchanged. -/
def build_url (url_path : String) (params : List (String × WDValue)) : Except String String :=
  match pyFormat url_path params with
  | .ok s => .ok s
  | .error (.keyError k) =>
      .error (pyQuote k ++ " is a required placeholder in url that is not provided")
  | .error (.valueError m) => .error m

/-- A command registry: the command-to-spec table and the alias table
(`command_codec.py`, class `CommandCodec`). -/
structure CommandCodec where
  commands : List (String × CommandSpec)
  aliases : List (String × String)

/-- `self._aliases.get(command_enum, command_enum)`. -/
def resolveAlias (codec : CommandCodec) (command : String) : String :=
  ((codec.aliases.find? (fun p => p.1 == command)).map (·.2)).getD command

/-- `self._commands.get(command_enum)`. -/
def findCommand (codec : CommandCodec) (command : String) : Option CommandSpec :=
  (codec.commands.find? (fun p => p.1 == command)).map (·.2)

/-- `CommandCodec.encode` (`command_codec.py` lines 201-213): resolve the
alias, look the command up (unknown commands are a `ValueError`), then build
the concrete URL from `session_id + params`. -/
def encode (codec : CommandCodec) (cmd : CommandInfo) : Except String CommandSpec :=
  let ce := resolveAlias codec cmd.command
  match findCommand codec ce with
  | none => .error (ce ++ " is not recognized as a valid command")
  | some spec =>
      match build_url spec.url_path (get_all_params cmd) with
      | .error e => .error e
      | .ok url => .ok ⟨spec.http_method, url⟩

/-- Outcome of the underlying HTTP call inside `HttpExecutor.execute`: a
response (status code and body text) or a transport-level exception carrying
its `str(ex)` message. -/
inductive TransportOutcome where
  | response (status_code : Nat) (body : String)
  | failure (message : String)

/-- Caller-observable outcome of `HttpExecutor.execute`: the wrapped
response value, a raised WebDriver exception, or a propagating internal
Python error. -/
inductive ExecResult where
  | value (v : WDValue)
  | raised (kind : Option ExcKind) (args : List WDValue)
  | pyerror (msg : String)

/-- The params preprocessing of `HttpExecutor.execute` (lines 91-96): copy,
strip a caller-supplied `sessionId` under W3C, then unwrap element handles
into their two-key wire form. -/
def preprocess_params (w3c : Bool) (params : List (String × WDValue)) : List (String × WDValue) :=
  let params := if w3c && hasKey params "sessionId" then delKey params "sessionId" else params
  unwrapPairs params

/-- `HttpExecutor.execute` (`http_executor.py` lines 85-120) against a
transport oracle mapping `(method, url, payload)` to the outcome of the
HTTP call.  Returns the number of HTTP calls performed together with the
caller-observable result: any exception inside the `try` block (encode
failure, transport failure, or a decoder error) is converted into the
synthetic unknown-error envelope carrying `str(ex)`; the envelope is then
run through `ErrorHandler.handle`, and on a normal return the value is
element-wrapped for the driver `wd` under dialect `w3c`. -/
def executeCommand (codec : CommandCodec) (w3c : Bool) (wd : Nat)
    (command : String) (session_id : WDValue) (params : List (String × WDValue))
    (transport : HttpMethod → String → List (String × WDValue) → TransportOutcome) :
    Nat × ExecResult :=
  let payload := preprocess_params w3c params
  let cmd : CommandInfo := ⟨command, session_id, payload⟩
  let step : Nat × WDValue :=
    match encode codec cmd with
    | .error ex => (0, create_response_for_error ex (pyExceptionObj ex))
    | .ok spec =>
        match transport spec.http_method spec.url_path payload with
        | .failure m => (1, create_response_for_error m (pyExceptionObj m))
        | .response sc body =>
            match create_response sc body with
            | .ok resp => (1, resp)
            | .error pe => (1, create_response_for_error pe (pyExceptionObj pe))
  match handle step.2 with
  | .ok =>
      match wrap_web_element wd step.2 w3c with
      | .ok v => (step.1, .value v)
      | .error e => (step.1, .pyerror e)
  | .raised k a => (step.1, .raised k a)
  | .pyerror e => (step.1, .pyerror e)

/-- The session-scoped driver state that `RemoteWebDriver` keeps for the
protocol layer: the session id, the dialect flag `_w3c`, and whether the
HTTP client of the executor has been closed. -/
structure DriverState where
  session_id : WDValue
  w3c : Bool
  executor_closed : Bool

/-- `RemoteWebDriver.execute` (`webdriver.py` lines 350-371): delegates to
the `HttpExecutor` and substitutes a default success envelope for a falsy
response; it reads but never writes the driver state, which is returned
unchanged. -/
def driver_execute (st : DriverState) (codec : CommandCodec) (wd : Nat)
    (command : String) (params : List (String × WDValue))
    (transport : HttpMethod → String → List (String × WDValue) → TransportOutcome) :
    DriverState × Nat × ExecResult :=
  let r := executeCommand codec st.w3c wd command st.session_id params transport
  let res := match r.2 with
    | .value v =>
        if truthy v then ExecResult.value v
        else ExecResult.value (.dict [("success", .int 0), ("value", .null), ("sessionId", st.session_id)])
    | other => other
  (st, r.1, res)

/-- The `WebDriverException` message of `start_session` for a missing
session id. -/
def sessionStartErrMsg : String :=
  "Remote server didn" ++ String.singleton squote ++ "t respond with sessionId during start session"

/-- The decision logic of `RemoteWebDriver.start_session` (`webdriver.py`
lines 330-348) applied to the `NEW_SESSION` response envelope: when the
top-level envelope has no `sessionId` key, the truthy `value` member takes
its place; the session id must be truthy; server capabilities come from
`value`, falling back to `capabilities`; and the dialect flag `_w3c` is set
to whether the `status` lookup on the examined object gives `None`.  Returns
`(session_id, server_capabilities, is_w3c)`. -/
def start_session_decision (response : WDValue) : Except String (WDValue × WDValue × Bool) :=
  match response with
  | .dict r0 =>
      let examined : Except String (List (String × WDValue)) :=
        if hasKey r0 "sessionId" then .ok r0
        else
          let v := getKeyD r0 "value" .null
          if truthy v then
            match v with
            | .dict d => .ok d
            | _ => .error "AttributeError"
          else .ok r0
      match examined with
      | .error e => .error e
      | .ok rr =>
          let sid := getKeyD rr "sessionId" .null
          if !truthy sid then .error sessionStartErrMsg
          else
            let caps0 := getKeyD rr "value" .null
            let caps := if truthy caps0 then caps0 else getKeyD rr "capabilities" .null
            let w3c := isNull (getKeyD rr "status" .null)
            .ok (sid, caps, w3c)
  | _ => .error "AttributeError"

/-- Driver-plus-service state observed by `quit()`: the remote session id
(which `RemoteWebDriver.quit` never clears), the dialect flag, whether the
HTTP client pool of the executor is closed, the supervised subprocess handle
(`Service.process`, `None` once released), and whether the service log sink
has been closed. -/
structure QuitState where
  session_id : WDValue
  w3c : Bool
  executor_closed : Bool
  process : Option Int
  log_closed : Bool

/-- The single entry of the base command table used by `quit()`
(`command_codec.py` line 31: `Command.QUIT: delete(self.for_session)`). -/
def quit_codec_fragment : CommandCodec :=
  ⟨[("quit", CommandSpec.for_delete "/session/{sessionId}")], []⟩

/-- The `RuntimeError` message httpx raises for a request on a closed
client, the transport outcome of a `QUIT` issued after `close()`. -/
def httpClientClosedMsg : String :=
  "Cannot send a request, as the client has been closed."

/-- `RemoteWebDriver.quit` (`webdriver.py` lines 470-486): when
`session_id` is truthy, execute the `QUIT` (DELETE-session) command — one
remote DELETE attempt — whose error handling may raise; the `finally` block
runs the no-op `stop_client` hook and closes the HTTP client of the executor.
`session_id` is left unchanged.  Returns the new state, the number of
DELETE attempts, and whether an exception escaped. -/
def remote_quit (st : QuitState) (t : TransportOutcome) : QuitState × Nat × Bool :=
  let step : Nat × Bool :=
    if truthy st.session_id then
      let outcome := if st.executor_closed then TransportOutcome.failure httpClientClosedMsg else t
      match executeCommand quit_codec_fragment st.w3c 0 "quit" st.session_id []
              (fun _ _ _ => outcome) with
      | (c, .value _) => (c, false)
      | (c, _) => (c, true)
    else (0, false)
  (⟨st.session_id, st.w3c, true, st.process, st.log_closed⟩, step.1, step.2)

/-- `Service.stop` (`service.py` lines 135-164): close the log sink
(errors swallowed); return immediately when the process handle is already
`None`; otherwise send the best-effort shutdown request, close the stdio
streams, terminate/wait/kill the process — one release of the handle — and
set the handle to `None`.  Returns the new state and the number of process
releases performed. -/
def service_stop (st : QuitState) : QuitState × Nat :=
  let st1 : QuitState := ⟨st.session_id, st.w3c, st.executor_closed, st.process, true⟩
  match st1.process with
  | none => (st1, 0)
  | some _ => (⟨st1.session_id, st1.w3c, st1.executor_closed, none, st1.log_closed⟩, 1)

/-- `ChromiumDriver.quit` (`chromium/webdriver.py` lines 149-159):
`super().quit()` with every exception swallowed, then — in the `finally`
block — `service.stop()`.  Returns the new state together with
`(delete_attempts, process_releases, exception_escaped)`; the swallow plus
the `stop` internals mean no exception escapes. -/
def chromium_quit (st : QuitState) (t : TransportOutcome) : QuitState × Nat × Nat × Bool :=
  let r1 := remote_quit st t
  let r2 := service_stop r1.1
  (r2.1, r1.2.1, r2.2, false)

/-- Classified outcome of the `Service.start` polling loop. -/
inductive StartPollResult where
  | exited (code : Int) (attempt : Nat)
  | connected (attempt : Nat)
  | cannot_connect
deriving DecidableEq

/-- One pass of the bounded polling loop of `Service.start` (`service.py`
lines 109-116), driven by oracles giving the subprocess return code and the
connectability of `localhost:port` at each attempt: each iteration first
checks `assert_process_still_running` (lines 169-173; a non-`None` return
code raises with that code), then breaks on a successful connect, else
sleeps one second and retries; an exhausted loop raises the
cannot-connect-to-service error. -/
def poll_go : Nat → Nat → (Nat → Option Int) → (Nat → Bool) → StartPollResult
  | 0, _, _, _ => .cannot_connect
  | Nat.succ fuel, i, rc, conn =>
      match rc i with
      | some code => .exited code i
      | none => if conn i then .connected i else poll_go fuel (i + 1) rc conn

/-- The `for _ in range(30)` polling loop of `Service.start`. -/
def service_start_poll (rc : Nat → Option Int) (conn : Nat → Bool) : StartPollResult :=
  poll_go 30 0 rc conn

/-- The entry of the base command table for `Command.STATUS`
(`command_codec.py` line 26), as a one-command registry for witnesses. -/
def status_codec_fragment : CommandCodec :=
  ⟨[("status", CommandSpec.for_get "/status")], []⟩

/-- The entry of the base command table for `Command.FIND_CHILD_ELEMENT`
(`command_codec.py` line 64), as a one-command registry for witnesses. -/
def find_child_element_codec_fragment : CommandCodec :=
  ⟨[("findChildElement", CommandSpec.for_post "/session/{sessionId}/element/{id}/element")], []⟩

/-- The single-key dict counterexample input of claim C10. -/
def danglingElementDict : WDValue := .dict [(ELEMENT1, .null)]

/-- Amended dialect rule of the spec for claim C4, stated in the words of the spec:
the `status` entry is absent or `None` in the object `start_session`
actually examines — the top-level response when it carries a `sessionId`
key, otherwise its truthy `value` member (a non-dict truthy `value` never
reaches the dialect decision). -/
def examined_status_absent_or_null (r0 : List (String × WDValue)) : Bool :=
  if hasKey r0 "sessionId" then isNull (getKeyD r0 "status" .null)
  else
    let v := getKeyD r0 "value" .null
    if truthy v then
      match v with
      | .dict d => isNull (getKeyD d "status" .null)
      | _ => false
    else isNull (getKeyD r0 "status" .null)

/-- Evaluation of `ErrorHandler.handle` on the synthetic unknown-error
envelope that `HttpExecutor.execute` builds from a caught exception: the
raised exception is the `UNKNOWN_ERROR` class with the message of the exception,
no screen, and an empty stacktrace list. -/
theorem handle_error_envelope (m e : String) :
    handle (create_response_for_error m (pyExceptionObj e)) =
      .raised (some ExcKind.WebDriverException) [.str m, .null, .list []] := by
  by_cases hm : m = ""
  · subst hm; rfl
  · simp [handle, create_response_for_error, pyExceptionObj, get_status_value_message,
      convert_str_to_json, status_is_numeric, is_success, is_match, pyEq, getKeyD, getKey,
      hasKey, truthy, isNull, get_stacktrace, get_exception_for_error, scanForException,
      DEFAULT_EXCEPTION, alertText, stackFrameLine, hm]
    rfl

/-- The ordered scan of `get_exception_for_error` agrees with a first-match
`List.find?` over the table, defaulting to `DEFAULT_EXCEPTION`. -/
theorem scanForException_eq_find (l : List WebDriverError) (v : WDValue) :
    scanForException l v =
      (match l.find? (fun e => is_match e v) with
       | some e => e.exception
       | none => DEFAULT_EXCEPTION) := by
  induction l with
  | nil => rfl
  | cons e rest ih =>
      by_cases h : is_match e v
      · simp [scanForException, List.find?, h]
      · simp only [Bool.not_eq_true] at h
        simp [scanForException, List.find?, h, ih]

/-- Claim C1: the canonical success entry of the spec is code 0 / slug
`"success"`, and `is_success` is to be false for the legacy
code and slug of every other entry — but the code registers the `SUCCESS` row with legacy code 7,
which is also the registered legacy code of the `NO_SUCH_SESSION` and
`NO_SUCH_ELEMENT` rows, so `is_success(0)` is false while `is_success(7)` is
true.  This theorem evaluates the code at the failing inputs. -/
theorem c1_is_success_at_failing_inputs :
    is_success (.int 0) = false ∧ is_success (.str "success") = true ∧
    is_success (.int 7) = true ∧
    ErrorCode.SUCCESS.json_code = 7 ∧
    ErrorCode.NO_SUCH_SESSION.json_code = 7 ∧
    ErrorCode.NO_SUCH_ELEMENT.json_code = 7 := by
  refine ⟨rfl, rfl, rfl, rfl, rfl, rfl⟩

/-- Claim C2: decoding an HTTP 404 response with body
`("status": 10, "value": "stale element")` and running the error handler on
the resulting envelope raises the stale-element-reference exception class
with message exactly `"stale element"` (and no screen or stacktrace). -/
theorem c2_http404_stale_element :
    create_response 404 "\x7b\"status\":10,\"value\":\"stale element\"\x7d" =
      .ok (.dict [("status", .int 404),
                  ("value", .dict [("status", .int 10), ("value", .str "stale element")])]) ∧
    handle (.dict [("status", .int 404),
                   ("value", .dict [("status", .int 10), ("value", .str "stale element")])]) =
      .raised (some ExcKind.StaleElementReferenceException) [.str "stale element", .null, .null] :=
  ⟨rfl, rfl⟩

/-- Claim C7 counterexample: slug lookup is not case/whitespace-insensitive —
`" Stale Element Reference "` does not resolve to the stale-element class
(it falls through to the default), while the exact slug does. -/
theorem c7_counterexample :
    get_exception_for_error (.str " Stale Element Reference ") = some ExcKind.WebDriverException ∧
    get_exception_for_error (.str "stale element reference") = some ExcKind.StaleElementReferenceException ∧
    some ExcKind.WebDriverException ≠ some ExcKind.StaleElementReferenceException := by
  refine ⟨rfl, rfl, by decide⟩

/-- Claim C7 as amended: `get_exception_for_error` scans the fixed table in
order and returns the exception class of the first entry that is marked
canonical-for-W3C and whose legacy code or W3C slug is exactly equal
(Python `==`, so case- and whitespace-sensitive for the slug) to the value,
and the default `WebDriverException` class when no entry matches. -/
theorem c7_exception_lookup_amended (v : WDValue) :
    get_exception_for_error v =
      (match ErrorCode.members.find? (fun e => is_match e v) with
       | some e => e.exception
       | none => DEFAULT_EXCEPTION) :=
  scanForException_eq_find ErrorCode.members v

/-- Claim C8: an element handle with remote id `i` unwraps to exactly the
two-key wire object binding both the legacy and the W3C key to `i`, and
wrapping that object back yields a handle that compares `==` equal to the
original (same remote element id). -/
theorem c8_element_roundtrip (i : String) (p p2 : Nat) (w w2 : Bool) :
    unwrap_web_element (.element p (.str i) w) =
      .dict [(ELEMENT1, .str i), (ELEMENT2, .str i)] ∧
    wrap_web_element p2 (.dict [(ELEMENT1, .str i), (ELEMENT2, .str i)]) w2 =
      .ok (.element p2 (.str i) w2) ∧
    pyEq (.element p2 (.str i) w2) (.element p (.str i) w) = true := by
  refine ⟨rfl, rfl, ?_⟩
  simp [pyEq]

/-- Claim C10 counterexample: a dictionary that contains the key `ELEMENT`
bound to `None` and lacks the W3C key is not replaced by an element handle —
indexing the W3C key raises a `KeyError`. -/
theorem c10_counterexample :
    wrap_web_element 0 danglingElementDict false = .error keyErrorElement2 ∧
    hasKey [(ELEMENT1, WDValue.null)] ELEMENT1 = true :=
  ⟨rfl, rfl⟩

/-- Claim C10 as amended: a dictionary containing the legacy or the W3C
element key is replaced wholesale (all other keys discarded) by a single
element handle — the value under the legacy key is used when present and non-null,
otherwise the value under the W3C key — except that a dictionary whose legacy value
is null/absent and which lacks the W3C key raises a `KeyError` instead of
producing a handle. -/
theorem c10_wrap_amended (p : Nat) (w : Bool) (l : List (String × WDValue))
    (h : hasKey l ELEMENT1 = true ∨ hasKey l ELEMENT2 = true) :
    wrap_web_element p (.dict l) w =
      (match getKey l ELEMENT1 with
       | some v =>
           if isNull v then
             (match getKey l ELEMENT2 with
              | some v2 => .ok (.element p v2 w)
              | none => .error keyErrorElement2)
           else .ok (.element p v w)
       | none =>
           (match getKey l ELEMENT2 with
            | some v2 => .ok (.element p v2 w)
            | none => .error keyErrorElement2)) := by
  rcases h with h | h <;>
    simp only [wrap_web_element, h, Bool.true_or, Bool.or_true, if_true]

/-- Claim C10 witness: a dictionary with a non-null legacy key and an extra
entry becomes a handle carrying the legacy id, the extra entry discarded. -/
theorem c10_wrap_amended_witness :
    hasKey [(ELEMENT1, WDValue.str "xyz"), ("extra", WDValue.int 1)] ELEMENT1 = true ∧
    wrap_web_element 4 (.dict [(ELEMENT1, WDValue.str "xyz"), ("extra", WDValue.int 1)]) true =
      .ok (.element 4 (.str "xyz") true) := by
  refine ⟨rfl, ?_⟩
  rw [c10_wrap_amended 4 true [(ELEMENT1, WDValue.str "xyz"), ("extra", WDValue.int 1)] (Or.inl rfl)]
  rfl

/-- Claim C3: when the command encodes successfully and the HTTP call itself
fails with any transport exception message `m`, `execute` does not let the
exception escape: it builds the synthetic unknown-error envelope (legacy
code 13 / slug `"unknown error"`) carrying `m`, routes it through the error
handler, and the caller observes the unknown-error exception class of the
taxonomy carrying `m` — after exactly the one attempted HTTP call. -/
theorem c3_transport_error_unknown_kind
    (codec : CommandCodec) (w3c : Bool) (wd : Nat) (command : String)
    (session_id : WDValue) (params : List (String × WDValue)) (spec : CommandSpec) (m : String)
    (henc : encode codec ⟨command, session_id, preprocess_params w3c params⟩ = .ok spec) :
    executeCommand codec w3c wd command session_id params (fun _ _ _ => .failure m) =
      (1, .raised (some ExcKind.WebDriverException) [.str m, .null, .list []]) := by
  simp only [executeCommand, henc]
  simp [handle_error_envelope]

/-- Claim C3 witness: a transport failure on the `STATUS` command surfaces
as the unknown-error exception class with the message of the failure. -/
theorem c3_transport_error_witness :
    encode status_codec_fragment ⟨"status", .str "abc", preprocess_params true []⟩ =
      .ok ⟨HttpMethod.GET, "/status"⟩ ∧
    executeCommand status_codec_fragment true 5 "status" (.str "abc") []
        (fun _ _ _ => .failure "connection refused") =
      (1, .raised (some ExcKind.WebDriverException) [.str "connection refused", .null, .list []]) :=
  ⟨rfl, c3_transport_error_unknown_kind status_codec_fragment true 5 "status" (.str "abc") []
    ⟨HttpMethod.GET, "/status"⟩ "connection refused" rfl⟩

/-- Claim C6: when the URL template of a registered command contains a
placeholder satisfied by neither the session id nor the params (the format
scan fails with `KeyError k`), the codec raises the configuration error
naming the missing key, and the invocation performs zero HTTP calls — the
exception surfacing to the caller carries that configuration message. -/
theorem c6_missing_placeholder_config_error
    (codec : CommandCodec) (w3c : Bool) (wd : Nat) (command : String)
    (session_id : WDValue) (params : List (String × WDValue)) (spec : CommandSpec) (k : String)
    (transport : HttpMethod → String → List (String × WDValue) → TransportOutcome)
    (hlook : findCommand codec (resolveAlias codec command) = some spec)
    (hmiss : pyFormat spec.url_path
        (get_all_params ⟨command, session_id, preprocess_params w3c params⟩) =
        .error (.keyError k)) :
    encode codec ⟨command, session_id, preprocess_params w3c params⟩ =
      .error (pyQuote k ++ " is a required placeholder in url that is not provided") ∧
    executeCommand codec w3c wd command session_id params transport =
      (0, .raised (some ExcKind.WebDriverException)
            [.str (pyQuote k ++ " is a required placeholder in url that is not provided"),
             .null, .list []]) := by
  have henc : encode codec ⟨command, session_id, preprocess_params w3c params⟩ =
      .error (pyQuote k ++ " is a required placeholder in url that is not provided") := by
    simp only [encode, hlook, build_url, hmiss]
  refine ⟨henc, ?_⟩
  simp only [executeCommand, henc]
  simp [handle_error_envelope]

/-- Claim C6 witness: `FIND_CHILD_ELEMENT` invoked without an `id` param
fails with the configuration message naming `id` and performs zero HTTP
calls. -/
theorem c6_missing_placeholder_witness :
    findCommand find_child_element_codec_fragment
        (resolveAlias find_child_element_codec_fragment "findChildElement") =
      some ⟨HttpMethod.POST, "/session/{sessionId}/element/{id}/element"⟩ ∧
    pyFormat "/session/{sessionId}/element/{id}/element"
        (get_all_params ⟨"findChildElement", .str "abc123", preprocess_params true []⟩) =
      .error (.keyError "id") ∧
    executeCommand find_child_element_codec_fragment true 5 "findChildElement" (.str "abc123") []
        (fun _ _ _ => .failure "unreachable") =
      (0, .raised (some ExcKind.WebDriverException)
            [.str (pyQuote "id" ++ " is a required placeholder in url that is not provided"),
             .null, .list []]) :=
  ⟨rfl, rfl,
   (c6_missing_placeholder_config_error find_child_element_codec_fragment true 5
      "findChildElement" (.str "abc123") []
      ⟨HttpMethod.POST, "/session/{sessionId}/element/{id}/element"⟩ "id"
      (fun _ _ _ => .failure "unreachable") rfl rfl).2⟩

/-- Claim C4 counterexample: a `NEW_SESSION` response with no top-level
legacy `status` field, but whose `value` member carries both the session id
and a `status`, yields `is_w3c_protocol = false` — the claim requires
`true` whenever the top level has no `status` field. -/
theorem c4_counterexample :
    hasKey [("value", WDValue.dict [("sessionId", WDValue.str "s1"), ("status", WDValue.int 0)])]
        "status" = false ∧
    start_session_decision
        (.dict [("value", .dict [("sessionId", .str "s1"), ("status", .int 0)])]) =
      .ok (.str "s1", .null, false) :=
  ⟨rfl, rfl⟩

/-- Claim C4 as amended: `start_session` sets the W3C flag to true exactly
when the object it examines — the top-level response if it carries a
`sessionId` key, otherwise its truthy `value` member — has no `status`
entry or a null one; and no later command execution changes the driver
state, in particular the flag, which is assigned only in `start_session`. -/
theorem c4_dialect_decision_amended (r0 : List (String × WDValue)) (sid caps : WDValue) (w : Bool)
    (h : start_session_decision (.dict r0) = .ok (sid, caps, w)) :
    w = examined_status_absent_or_null r0 ∧
    (∀ (st : DriverState) (codec : CommandCodec) (wd : Nat) (command : String)
       (params : List (String × WDValue))
       (transport : HttpMethod → String → List (String × WDValue) → TransportOutcome),
       (driver_execute st codec wd command params transport).1.w3c = st.w3c) := by
  refine ⟨?_, fun _ _ _ _ _ _ => rfl⟩
  unfold start_session_decision at h
  unfold examined_status_absent_or_null
  by_cases h1 : hasKey r0 "sessionId" = true
  · simp only [h1, if_true] at h ⊢
    by_cases h2 : truthy (getKeyD r0 "sessionId" WDValue.null) = true
    · simp only [h2, Bool.not_true] at h
      simp only [Bool.false_eq_true, if_false, Except.ok.injEq, Prod.mk.injEq] at h
      exact h.2.2.symm
    · simp only [Bool.not_eq_true] at h2
      simp only [h2, Bool.not_false, if_true] at h
      exact absurd h (by simp)
  · simp only [Bool.not_eq_true] at h1
    simp only [h1, Bool.false_eq_true, if_false] at h ⊢
    by_cases hv : truthy (getKeyD r0 "value" WDValue.null) = true
    · simp only [hv, if_true] at h ⊢
      cases hval : getKeyD r0 "value" WDValue.null with
      | dict d =>
          rw [hval] at h
          dsimp only at h ⊢
          by_cases h2 : truthy (getKeyD d "sessionId" WDValue.null) = true
          · simp only [h2, Bool.not_true] at h
            simp only [Bool.false_eq_true, if_false, Except.ok.injEq, Prod.mk.injEq] at h
            exact h.2.2.symm
          · simp only [Bool.not_eq_true] at h2
            simp only [h2, Bool.not_false, if_true] at h
            exact absurd h (by simp)
      | null => rw [hval] at h; simp at h
      | bool b => rw [hval] at h; simp at h
      | int n => rw [hval] at h; simp at h
      | str s => rw [hval] at h; simp at h
      | list xs => rw [hval] at h; simp at h
      | element pr idv wv => rw [hval] at h; simp at h
    · simp only [Bool.not_eq_true] at hv
      simp only [hv, Bool.false_eq_true, if_false] at h ⊢
      by_cases h2 : truthy (getKeyD r0 "sessionId" WDValue.null) = true
      · simp only [h2, Bool.not_true] at h
        simp only [Bool.false_eq_true, if_false, Except.ok.injEq, Prod.mk.injEq] at h
        exact h.2.2.symm
      · simp only [Bool.not_eq_true] at h2
        simp only [h2, Bool.not_false, if_true] at h
        exact absurd h (by simp)

/-- Claim C4 witness: scenario E of the spec — `sessionId` at top level, no
`status` anywhere — decides W3C, in agreement with the amended rule. -/
theorem c4_dialect_decision_witness :
    start_session_decision
        (.dict [("sessionId", .str "s1"), ("value", .dict [("browserName", .str "chrome")])]) =
      .ok (.str "s1", .dict [("browserName", .str "chrome")], true) ∧
    true = examined_status_absent_or_null
        [("sessionId", .str "s1"), ("value", .dict [("browserName", .str "chrome")])] :=
  ⟨rfl,
   (c4_dialect_decision_amended
      [("sessionId", .str "s1"), ("value", .dict [("browserName", .str "chrome")])]
      (.str "s1") (.dict [("browserName", .str "chrome")]) true rfl).1⟩

/-- Evaluation of `RemoteWebDriver.quit` once the HTTP client of the executor is
closed: with a truthy session id the `QUIT` command is re-issued, the `RuntimeError`
of the closed client is converted to the synthetic unknown-error
envelope, and the error handler raises — one DELETE attempt, one escaped
exception, state unchanged except that the executor stays closed. -/
theorem remote_quit_closed (sid : WDValue) (hsid : truthy sid = true) (w3c : Bool)
    (p : Option Int) (l : Bool) (t : TransportOutcome) :
    remote_quit ⟨sid, w3c, true, p, l⟩ t = (⟨sid, w3c, true, p, l⟩, 1, true) := by
  unfold remote_quit
  simp only [hsid, if_true]
  cases w3c <;> rfl

/-- Claim C5 counterexample: after one successful `quit()` on a Chromium
driver, a second `quit()` issues one more remote DELETE-session attempt —
the claim requires zero — because `session_id` is never cleared. -/
theorem c5_counterexample :
    (chromium_quit
        ((chromium_quit ⟨.str "s1", true, false, some 0, false⟩
            (.response 200 "\x7b\"value\":null\x7d")).1)
        (.failure "connection refused")).2.1 = 1 ∧
    (1 : Nat) ≠ 0 ∧
    (chromium_quit ⟨.str "s1", true, false, some 0, false⟩
        (.response 200 "\x7b\"value\":null\x7d")).2 = (1, 1, false) :=
  ⟨rfl, by decide, rfl⟩

/-- Claim C5 as amended: after one `quit()`, a second `quit()` on the
Chromium driver frees the supervised process handle zero further times and
raises no exception, but it does issue one more remote DELETE attempt
(failing internally on the closed client and swallowed by
`ChromiumDriver.quit`), because `RemoteWebDriver.quit` never clears
`session_id`. -/
theorem c5_second_quit_amended (sid : String) (hs : sid ≠ "") (w3c : Bool) (pid : Int)
    (t1 t2 : TransportOutcome) :
    (chromium_quit ⟨.str sid, w3c, false, some pid, false⟩ t1).1.session_id = .str sid ∧
    (chromium_quit (chromium_quit ⟨.str sid, w3c, false, some pid, false⟩ t1).1 t2).2 =
      (1, 0, false) := by
  have hsid : truthy (WDValue.str sid) = true := by simp [truthy, hs]
  have h1 : (chromium_quit ⟨.str sid, w3c, false, some pid, false⟩ t1).1 =
      ⟨.str sid, w3c, true, none, true⟩ := rfl
  refine ⟨by rw [h1], ?_⟩
  rw [h1]
  unfold chromium_quit
  rw [remote_quit_closed (.str sid) hsid w3c none true t2]
  rfl

/-- Claim C5 witness: a concrete second `quit()` after a successful first
one — one further DELETE attempt, zero process releases, no exception. -/
theorem c5_second_quit_witness :
    ("s1" : String) ≠ "" ∧
    (chromium_quit (chromium_quit ⟨.str "s1", true, false, some 7, false⟩
        (.response 200 "\x7b\"value\":null\x7d")).1 (.failure "x")).2 = (1, 0, false) :=
  ⟨by decide,
   (c5_second_quit_amended "s1" (by decide) true 7 (.response 200 "\x7b\"value\":null\x7d")
      (.failure "x")).2⟩

/-- Characterization of the bounded polling loop `poll_go` from any start
index: an `exited`/`connected` outcome happens within the fuel bound at the
first attempt whose observation triggers it (the exit check strictly before
the connect check), and `cannot_connect` means every attempt in the window
saw a running but unconnectable service. -/
theorem poll_go_spec (fuel : Nat) (i : Nat) (rc : Nat → Option Int) (conn : Nat → Bool) :
    (∀ c k, poll_go fuel i rc conn = .exited c k →
        i ≤ k ∧ k < i + fuel ∧ rc k = some c ∧
        ∀ j, i ≤ j → j < k → rc j = none ∧ conn j = false) ∧
    (∀ k, poll_go fuel i rc conn = .connected k →
        i ≤ k ∧ k < i + fuel ∧ rc k = none ∧ conn k = true ∧
        ∀ j, i ≤ j → j < k → rc j = none ∧ conn j = false) ∧
    (poll_go fuel i rc conn = .cannot_connect →
        ∀ j, i ≤ j → j < i + fuel → rc j = none ∧ conn j = false) := by
  induction fuel generalizing i with
  | zero =>
      refine ⟨?_, ?_, ?_⟩
      · intro c k hk; exact absurd hk (by simp [poll_go])
      · intro k hk; exact absurd hk (by simp [poll_go])
      · intro _ j hij hj; omega
  | succ f ih =>
      refine ⟨?_, ?_, ?_⟩
      · intro c k hk
        unfold poll_go at hk
        cases hrc : rc i with
        | some code =>
            rw [hrc] at hk
            injection hk with hc hk'
            subst hc; subst hk'
            exact ⟨le_refl _, by omega, hrc, fun j hij hj => absurd hj (by omega)⟩
        | none =>
            rw [hrc] at hk
            cases hcn : conn i with
            | true => rw [hcn] at hk; simp at hk
            | false =>
                rw [hcn] at hk
                simp only [Bool.false_eq_true, if_false] at hk
                obtain ⟨hik, hkf, hrck, hprev⟩ := ((ih (i + 1)).1) c k hk
                refine ⟨by omega, by omega, hrck, fun j hij hj => ?_⟩
                rcases Nat.eq_or_lt_of_le hij with rfl | hij'
                · exact ⟨hrc, hcn⟩
                · exact hprev j (by omega) hj
      · intro k hk
        unfold poll_go at hk
        cases hrc : rc i with
        | some code => rw [hrc] at hk; simp at hk
        | none =>
            rw [hrc] at hk
            cases hcn : conn i with
            | true =>
                rw [hcn] at hk
                simp only [if_true] at hk
                injection hk with hk'
                subst hk'
                exact ⟨le_refl _, by omega, hrc, hcn, fun j hij hj => absurd hj (by omega)⟩
            | false =>
                rw [hcn] at hk
                simp only [Bool.false_eq_true, if_false] at hk
                obtain ⟨hik, hkf, hrck, hcnk, hprev⟩ := ((ih (i + 1)).2.1) k hk
                refine ⟨by omega, by omega, hrck, hcnk, fun j hij hj => ?_⟩
                rcases Nat.eq_or_lt_of_le hij with rfl | hij'
                · exact ⟨hrc, hcn⟩
                · exact hprev j (by omega) hj
      · intro hk j hij hj
        unfold poll_go at hk
        cases hrc : rc i with
        | some code => rw [hrc] at hk; simp at hk
        | none =>
            rw [hrc] at hk
            cases hcn : conn i with
            | true => rw [hcn] at hk; simp at hk
            | false =>
                rw [hcn] at hk
                simp only [Bool.false_eq_true, if_false] at hk
                rcases Nat.eq_or_lt_of_le hij with rfl | hij'
                · exact ⟨hrc, hcn⟩
                · exact ((ih (i + 1)).2.2) hk j (by omega) (by omega)

/-- Claim C9: the startup wait of `Service.start` performs at most 30 poll
attempts (one sleep apart) and always terminates within that bound: a fatal
exited-with-code outcome reports the return code observed at its attempt
(checked before any connect), a success stops at the first connectable
attempt, and the cannot-connect outcome means all 30 attempts found the
process running but the port unconnectable. -/
theorem c9_service_start_poll_bounded (rc : Nat → Option Int) (conn : Nat → Bool) :
    (∀ c k, service_start_poll rc conn = .exited c k →
        k < 30 ∧ rc k = some c ∧ ∀ j, j < k → rc j = none ∧ conn j = false) ∧
    (∀ k, service_start_poll rc conn = .connected k →
        k < 30 ∧ rc k = none ∧ conn k = true ∧ ∀ j, j < k → rc j = none ∧ conn j = false) ∧
    (service_start_poll rc conn = .cannot_connect →
        ∀ j, j < 30 → rc j = none ∧ conn j = false) := by
  obtain ⟨he, hc, hn⟩ := poll_go_spec 30 0 rc conn
  refine ⟨?_, ?_, ?_⟩
  · intro c k hk
    obtain ⟨_, hkf, hrck, hprev⟩ := he c k hk
    exact ⟨by omega, hrck, fun j hj => hprev j (by omega) hj⟩
  · intro k hk
    obtain ⟨_, hkf, hrck, hcnk, hprev⟩ := hc k hk
    exact ⟨by omega, hrck, hcnk, fun j hj => hprev j (by omega) hj⟩
  · intro hk j hj
    exact hn hk j (by omega) (by omega)

/-- Claim C9 witness: with a never-exiting process that becomes connectable
at the third attempt, the loop stops there, within the bound, having seen
only running-and-unconnectable attempts before. -/
theorem c9_service_start_poll_witness :
    service_start_poll (fun _ => none) (fun k => k == 2) = .connected 2 ∧
    2 < 30 ∧ (fun _ => (none : Option Int)) 2 = none ∧ ((fun k : Nat => k == 2) 2) = true :=
  ⟨rfl,
   ((c9_service_start_poll_bounded (fun _ => none) (fun k => k == 2)).2.1 2 rfl).1,
   ((c9_service_start_poll_bounded (fun _ => none) (fun k => k == 2)).2.1 2 rfl).2.1,
   ((c9_service_start_poll_bounded (fun _ => none) (fun k => k == 2)).2.1 2 rfl).2.2.1⟩

end SeleniumX
